import Mathlib

/-
Verification of the video-bot HTTP backend against its specification.

The repository contains three incremental variants of the same Express
server:
  * server.js, first half  (variant A: no local store),
  * server.js, second half (variant B: in-memory `videoStore` Map,
    background poller `monitorVideoGeneration`, download/info endpoints),
  * the deployment variant (variant FS: filesystem store,
    `waitForVideoCompletion`, `downloadAndSaveVideo`).

Each JavaScript function relevant to the claims is embedded as a pure
Lean function.  Network effects (upstream fetches) are passed in as
explicit arguments: a poller receives the stream of per-attempt fetch
outcomes, a download routine receives the per-URL outcome map.  The
in-memory `Map` is modelled as an association list where `set` prepends
and `get` takes the first match, which reproduces the observable
get/set behaviour of a JavaScript Map.  JSON keys that a handler leaves
undefined (and which therefore do not appear in the serialized
response) are modelled as `Option.none`.
-/

set_option maxRecDepth 8000

namespace VideoBot

/-- JavaScript truthiness for an optional string value: `undefined` and
the empty string are falsy (`!prompt`, `!jobId`, `!process.env.X`). -/
def jsFalsy (v : Option String) : Bool :=
  v.getD "" = ""

/-- JavaScript `x || d` where `x` is a looked-up number: `undefined`
and `0` are falsy and fall through to the default. -/
def jsOrNat (v : Option Nat) (d : Nat) : Nat :=
  match v with
  | none => d
  | some n => if n = 0 then d else n

/-- JavaScript `x || d` where `x` is a looked-up string: `undefined`
and the empty string fall through to the default. -/
def jsOrStr (v : Option String) (d : String) : String :=
  match v with
  | none => d
  | some s => if s = "" then d else s

/-- JavaScript template interpolation of a possibly-undefined value. -/
def jsTemplateOpt (v : Option String) : String :=
  match v with
  | none => "undefined"
  | some s => s

/-- Environment configuration read from `process.env`. -/
structure EnvConfig where
  endpoint : Option String
  key : Option String
  apiVersion : Option String
deriving DecidableEq

/-- Embeds `AZURE_VIDEO_ENDPOINT.replace(/\x2f$\x2f, '')`: drops one
trailing slash if present. -/
def stripTrailingSlash (s : String) : String :=
  if s.data.getLast? = some '/' then String.mk s.data.dropLast else s

/-- The `baseEndpoint` local computed by every handler. -/
def baseEndpoint (cfg : EnvConfig) : String :=
  stripTrailingSlash (cfg.endpoint.getD "")

/-- Embeds `process.env.AZURE_VIDEO_API_VERSION || 'preview'`. -/
def apiVersionOf (cfg : EnvConfig) : String :=
  jsOrStr cfg.apiVersion "preview"

/-- One element of the upstream `generations` array; only its `id`
field is read by the code under verification. -/
structure Generation where
  id : String
deriving DecidableEq

/-- Result of one `checkVideoStatus` call as consumed by the pollers:
either the catch branch fired (`success:false` object, or a thrown
error swallowed by the loop) or the upstream body was decoded. -/
inductive FetchOutcome where
  | fetchError : String → FetchOutcome
  | ok : String → Option (List Generation) → Option String → FetchOutcome
deriving DecidableEq

/-- The upstream `status` string observed by an attempt, if any. -/
def statusOf : FetchOutcome → Option String
  | FetchOutcome.fetchError _ => none
  | FetchOutcome.ok st _ _ => some st

/-- An attempt outcome that is neither `succeeded` nor `failed`:
a fetch error or any non-terminal status.  The poll loop keeps going
on exactly these outcomes. -/
def nonTerminal (o : FetchOutcome) : Prop :=
  statusOf o ≠ some "succeeded" ∧ statusOf o ≠ some "failed"

instance (o : FetchOutcome) : Decidable (nonTerminal o) := by
  unfold nonTerminal; infer_instance

/-- Embeds `generations?.[0]?.id` (optional chaining). -/
def genFirst (gens : Option (List Generation)) : Option String :=
  match gens with
  | none => none
  | some l => l.head?.map Generation.id

/-- Bytes of a binary response body. -/
abbrev Bytes := List Nat

/-- Outcome of fetching one concrete URL in a download routine:
an HTTP success with a body, a non-ok HTTP status, or a thrown error. -/
inductive DlOutcome where
  | ok : Bytes → DlOutcome
  | httpError : Nat → DlOutcome
  | exn : String → DlOutcome
deriving DecidableEq

/-- The bytes delivered by a fetch outcome, when it is an HTTP success. -/
def dlOkBytes : DlOutcome → Option Bytes
  | DlOutcome.ok b => some b
  | DlOutcome.httpError _ => none
  | DlOutcome.exn _ => none

/-- Shared helper `getProgressFromStatus`: the status→percentage table.
The table text is identical in all three variants of the server. -/
def progressTable (status : String) : Option Nat :=
  if status = "preprocessing" then some 20
  else if status = "queued" then some 30
  else if status = "running" then some 60
  else if status = "processing" then some 85
  else if status = "succeeded" then some 100
  else if status = "failed" then some 0
  else none

/-- Embeds `getProgressFromStatus`: `progress[status] || 10`. -/
def getProgressFromStatus (status : String) : Nat :=
  jsOrNat (progressTable status) 10

/-- Which HTTP endpoints a request handler invocation touched.  Set
along each control path exactly where the source performs the
corresponding call. -/
structure Effects where
  storeConsulted : Bool
  upstreamCalled : Bool
deriving DecidableEq

/-- Upstream reply to the job-submission POST, as seen by the
`/generate-video` handler after `response.json()`. -/
structure SubmitResponse where
  httpStatus : Nat
  id : Option String
  status : Option String
  /-- `JSON.stringify(responseData)`, used only in the error message. -/
  bodyText : String
deriving DecidableEq

/-- JSON body produced by the `/generate-video` handler. -/
structure GenerateResponse where
  success : Bool
  error : Option String
  jobId : Option String
  status : Option String
  message : Option String
  note : Option String
deriving DecidableEq

/-- Embeds the `/generate-video` handler (the request/response logic is
identical in all variants).  The second component records whether the
upstream submission fetch was performed on that control path. -/
def generateVideo (prompt : Option String) (cfg : EnvConfig)
    (upstream : SubmitResponse) : GenerateResponse × Bool :=
  if jsFalsy prompt then
    (⟨false, some "Please provide a video prompt", none, none, none, none⟩, false)
  else if jsFalsy cfg.endpoint || jsFalsy cfg.key then
    (⟨false, some "Video service configuration missing", none, none, none, none⟩, false)
  else if upstream.httpStatus = 201 ∨ upstream.httpStatus = 202 then
    (⟨true, none, upstream.id, upstream.status,
      some "Video generation started successfully!",
      some "Video will be ready in 2-5 minutes."⟩, true)
  else
    (⟨false, some ("Video generation failed: Video service error: " ++
        toString upstream.httpStatus ++ " - " ++ upstream.bodyText),
      none, none, none, none⟩, true)

namespace ServerB

/-- A value of the in-memory `videoStore` Map.  The success write has
all three fields; the failure write `\x7b status: 'failed' \x7d` leaves the
other two undefined. -/
structure StoreEntry where
  generationId : Option String
  status : String
  prompt : Option String
deriving DecidableEq

/-- The `videoStore` Map, observed through get/set only. -/
abbrev Store := List (String × StoreEntry)

/-- `videoStore.set(k, e)`: later writes shadow earlier ones. -/
def storeSet (s : Store) (k : String) (e : StoreEntry) : Store :=
  (k, e) :: s

/-- `videoStore.get(k)`: first (most recent) matching entry. -/
def storeGet : Store → String → Option StoreEntry
  | [], _ => none
  | (k, e) :: rest, q => if q = k then some e else storeGet rest q

/-- `maxAttempts = 60` in both pollers. -/
def maxAttempts : Nat := 60

/-- The body of `monitorVideoGeneration`'s for-loop.  `attempt` is the
1-based attempt counter, the second argument the number of loop
iterations still allowed.  Each iteration performs exactly one
`checkVideoStatus` fetch (drawn from `fetches`); the returned number
counts the fetches performed.  A `succeeded` observation with a
non-empty `generations` array writes the ready entry and breaks; a
`succeeded` observation without generations breaks without writing;
a `failed` observation writes the failed entry and breaks; every other
outcome (including fetch errors, which the catch swallows) continues. -/
def monitorGo (jobId : String) (fetches : Nat → FetchOutcome) :
    Nat → Nat → Store → Store × Nat
  | _, 0, store => (store, 0)
  | attempt, rem + 1, store =>
    match fetches attempt with
    | FetchOutcome.fetchError _ =>
      let r := monitorGo jobId fetches (attempt + 1) rem store
      (r.1, r.2 + 1)
    | FetchOutcome.ok st gens p =>
      if st = "succeeded" then
        match gens with
        | some (g :: _) => (storeSet store jobId ⟨some g.id, "ready", p⟩, 1)
        | _ => (store, 1)
      else if st = "failed" then
        (storeSet store jobId ⟨none, "failed", none⟩, 1)
      else
        let r := monitorGo jobId fetches (attempt + 1) rem store
        (r.1, r.2 + 1)

/-- Embeds `monitorVideoGeneration(jobId)`: up to 60 attempts starting
at attempt 1, threading the `videoStore`. -/
def monitorVideoGeneration (jobId : String) (fetches : Nat → FetchOutcome)
    (store : Store) : Store × Nat :=
  monitorGo jobId fetches 1 maxAttempts store

/-- Variant B status→message table (`getStatusMessage`). -/
def messagesTable (status : String) (videoReady : Bool) : Option String :=
  if status = "preprocessing" then some "Video is being prepared..."
  else if status = "queued" then some "Video is in queue..."
  else if status = "running" then some "Video is being generated..."
  else if status = "processing" then some "Video is processing..."
  else if status = "succeeded" then
    some (if videoReady then "Video ready for download!" else "Finalizing video...")
  else if status = "failed" then some "Video generation failed"
  else none

/-- Embeds variant B `getStatusMessage(status, videoReady)`. -/
def getStatusMessage (status : String) (videoReady : Bool) : String :=
  jsOrStr (messagesTable status videoReady) ("Status: " ++ status)

/-- JSON body of the variant B `/check-video-status` handler.  Fields
the handler never sets on a path stay `none` (absent from the JSON);
in particular this variant never emits a `videoUrl` or `downloadUrl`
key at all. -/
structure CheckStatusResponse where
  success : Bool
  error : Option String
  jobId : Option String
  status : Option String
  progress : Option Nat
  videoReady : Option Bool
  videoUrl : Option String
  downloadUrl : Option String
  message : Option String
deriving DecidableEq

/-- Embeds the variant B `/check-video-status` handler.  `outcome` is
the result of its own `checkVideoStatus(jobId)` upstream fetch.
`videoData && videoData.status === 'ready'` evaluates to `undefined`
when the store has no entry, so `videoReady` is an `Option Bool`. -/
def checkVideoStatusHandler (jobIdQ : Option String) (outcome : FetchOutcome)
    (store : Store) : CheckStatusResponse :=
  if jsFalsy jobIdQ then
    ⟨false, some "Job ID is required", none, none, none, none, none, none, none⟩
  else
    let jobId := jobIdQ.getD ""
    match outcome with
    | FetchOutcome.fetchError e =>
      ⟨false, some e, none, none, none, none, none, none, none⟩
    | FetchOutcome.ok st _ _ =>
      let videoReady := (storeGet store jobId).map (fun e => e.status == "ready")
      ⟨true, none, some jobId, some st, some (getProgressFromStatus st),
        videoReady, none, none,
        some (getStatusMessage st (videoReady.getD false))⟩

/-- The download URL the `/download-video` handler constructs from a
stored generation id. -/
def contentVideoUrl (cfg : EnvConfig) (generationId : String) : String :=
  baseEndpoint cfg ++ "/openai/v1/video/generations/" ++ generationId ++
    "/content/video?api-version=" ++ apiVersionOf cfg

/-- Response of the `/download-video` handler.  `downloadUrl` records
the URL the handler fetched on the success path; `body` the bytes it
sent. -/
structure DownloadResponse where
  httpStatus : Nat
  error : Option String
  downloadUrl : Option String
  body : Option Bytes
deriving DecidableEq

/-- Embeds the variant B `/download-video` handler.  `dl` maps a URL to
the outcome of fetching it.  The missing-jobId check precedes every
store and upstream access. -/
def downloadVideoHandler (jobIdQ : Option String) (store : Store)
    (cfg : EnvConfig) (dl : String → DlOutcome) : DownloadResponse × Effects :=
  if jsFalsy jobIdQ then
    (⟨400, some "Job ID is required", none, none⟩, ⟨false, false⟩)
  else
    let jobId := jobIdQ.getD ""
    match storeGet store jobId with
    | none => (⟨404, some "Video not ready or not found", none, none⟩, ⟨true, false⟩)
    | some entry =>
      if entry.status ≠ "ready" then
        (⟨404, some "Video not ready or not found", none, none⟩, ⟨true, false⟩)
      else
        let url := contentVideoUrl cfg (jsTemplateOpt entry.generationId)
        match dl url with
        | DlOutcome.ok bytes => (⟨200, none, some url, some bytes⟩, ⟨true, true⟩)
        | DlOutcome.httpError n =>
          (⟨500, some ("Download failed: Download failed with status: " ++ toString n),
            none, none⟩, ⟨true, true⟩)
        | DlOutcome.exn m =>
          (⟨500, some ("Download failed: " ++ m), none, none⟩, ⟨true, true⟩)

/-- Response of the `/get-video-info` handler. -/
structure VideoInfoResponse where
  httpStatus : Nat
  success : Option Bool
  error : Option String
  jobId : Option String
  status : Option String
  generationId : Option String
  prompt : Option String
deriving DecidableEq

/-- Embeds the variant B `/get-video-info` handler: it never contacts
upstream; the missing-jobId check precedes the store lookup. -/
def getVideoInfoHandler (jobIdQ : Option String) (store : Store) :
    VideoInfoResponse × Effects :=
  if jsFalsy jobIdQ then
    (⟨400, none, some "Job ID is required", none, none, none, none⟩, ⟨false, false⟩)
  else
    let jobId := jobIdQ.getD ""
    match storeGet store jobId with
    | none => (⟨404, none, some "Video data not found", none, none, none, none⟩, ⟨true, false⟩)
    | some e =>
      (⟨200, some true, none, some jobId, some e.status, e.generationId, e.prompt⟩,
        ⟨true, false⟩)

end ServerB

namespace Fs

/-- Return value of `waitForVideoCompletion`. -/
structure VideoResult where
  success : Bool
  status : Option String
  generationId : Option String
  error : Option String
deriving DecidableEq

/-- The body of `waitForVideoCompletion`'s for-loop, in the deployment
variant.  Same loop shape as the variant B poller, but it returns a
result instead of writing a store; its `checkVideoStatus` extracts
`generations?.[0]?.id`. -/
def waitGo (fetches : Nat → FetchOutcome) : Nat → Nat → VideoResult × Nat
  | _, 0 => (⟨false, none, none, some "Video generation timeout after 10 minutes"⟩, 0)
  | attempt, rem + 1 =>
    match fetches attempt with
    | FetchOutcome.fetchError _ =>
      let r := waitGo fetches (attempt + 1) rem
      (r.1, r.2 + 1)
    | FetchOutcome.ok st gens _ =>
      if st = "succeeded" then
        (⟨true, some st, genFirst gens, none⟩, 1)
      else if st = "failed" then
        (⟨false, none, none, some "Video generation failed"⟩, 1)
      else
        let r := waitGo fetches (attempt + 1) rem
        (r.1, r.2 + 1)

/-- Embeds `waitForVideoCompletion(jobId)`: up to 60 attempts starting
at attempt 1; exhausting the budget yields the timeout result. -/
def waitForVideoCompletion (fetches : Nat → FetchOutcome) : VideoResult × Nat :=
  waitGo fetches 1 ServerB.maxAttempts

/-- First candidate download URL of `downloadAndSaveVideo`. -/
def contentUrl (cfg : EnvConfig) (generationId : String) : String :=
  baseEndpoint cfg ++ "/openai/v1/video/generations/" ++ generationId ++
    "/content?api-version=" ++ apiVersionOf cfg

/-- Second candidate download URL of `downloadAndSaveVideo`. -/
def jobScopedContentUrl (cfg : EnvConfig) (jobId generationId : String) : String :=
  baseEndpoint cfg ++ "/openai/v1/video/generations/jobs/" ++ jobId ++
    "/generations/" ++ generationId ++ "/content?api-version=" ++ apiVersionOf cfg

/-- The `endpoints` array of `downloadAndSaveVideo`, in source order. -/
def downloadEndpoints (cfg : EnvConfig) (jobId generationId : String) : List String :=
  [contentUrl cfg generationId, jobScopedContentUrl cfg jobId generationId]

/-- The candidate loop of `downloadAndSaveVideo`: take the body of the
first candidate whose fetch returns an HTTP success; a non-ok status or
a thrown error moves on to the next candidate. -/
def dlLoop (dl : String → DlOutcome) : List String → Option Bytes
  | [] => none
  | e :: rest =>
    match dl e with
    | DlOutcome.ok b => some b
    | DlOutcome.httpError _ => dlLoop dl rest
    | DlOutcome.exn _ => dlLoop dl rest

/-- A file written by `saveVideoToStorage`. -/
structure SavedFile where
  fileName : String
  bytes : Bytes
deriving DecidableEq

/-- Embeds `downloadAndSaveVideo(jobId, generationId)`: when no
candidate succeeded the function returns with nothing saved; otherwise
`saveVideoToStorage` writes `video-\x7bjobId\x7d.mp4` with the downloaded
bytes. -/
def downloadAndSaveVideo (cfg : EnvConfig) (jobId generationId : String)
    (dl : String → DlOutcome) : Option SavedFile :=
  match dlLoop dl (downloadEndpoints cfg jobId generationId) with
  | none => none
  | some b => some ⟨"video-" ++ jobId ++ ".mp4", b⟩

/-- Deployment-variant status→message table (`getStatusMessage`);
its `succeeded` entries differ from variant B. -/
def messagesTable (status : String) (videoReady : Bool) : Option String :=
  if status = "preprocessing" then some "Video is being prepared..."
  else if status = "queued" then some "Video is in queue..."
  else if status = "running" then some "Video is being generated..."
  else if status = "processing" then some "Video is processing..."
  else if status = "succeeded" then
    some (if videoReady then "Video ready for download!"
          else "Video generated, preparing download...")
  else if status = "failed" then some "Video generation failed"
  else none

/-- Embeds the deployment variant `getStatusMessage`. -/
def getStatusMessage (status : String) (videoReady : Bool) : String :=
  jsOrStr (messagesTable status videoReady) ("Status: " ++ status)

end Fs

/-- A fetch stream in which every attempt observes status `running`
(concrete fixture for closed instances). -/
def constRunningFetches : Nat → FetchOutcome :=
  fun _ => FetchOutcome.ok "running" none none

/-- A fetch stream in which every attempt observes `succeeded` with
generation `g1` (concrete fixture for closed instances). -/
def constSucceededFetches : Nat → FetchOutcome :=
  fun _ => FetchOutcome.ok "succeeded" (some [⟨"g1"⟩]) (some "a cat")

/-- A fetch stream in which every attempt observes `failed` (concrete
fixture for closed instances). -/
def constFailedFetches : Nat → FetchOutcome :=
  fun _ => FetchOutcome.ok "failed" none none

/-- A concrete environment configuration for closed instances. -/
def cfgEx : EnvConfig :=
  ⟨some "https://example.azure.com/", some "key123", none⟩

/-- A concrete per-URL fetch map whose first candidate URL fails with
HTTP 404 and every other URL succeeds (fixture for closed instances). -/
def dlSecondOnly : String → DlOutcome :=
  fun u => if u = Fs.contentUrl cfgEx "g1" then DlOutcome.httpError 404
           else DlOutcome.ok [9, 9, 9]

/-- A concrete per-URL fetch map on which every fetch succeeds
(fixture for closed instances). -/
def dlAlwaysOk : String → DlOutcome :=
  fun _ => DlOutcome.ok [7]

/-- A concrete accepted upstream submission reply (fixture). -/
def up202Ex : SubmitResponse :=
  ⟨202, some "abc", some "queued", "accepted-body"⟩

/-- A concrete rejected upstream submission reply (fixture). -/
def up500Ex : SubmitResponse :=
  ⟨500, none, none, "quota exceeded"⟩

theorem nonTerminal_ok {st : String} {gens : Option (List Generation)}
    {p : Option String} :
    nonTerminal (FetchOutcome.ok st gens p) ↔ st ≠ "succeeded" ∧ st ≠ "failed" := by
  simp [nonTerminal, statusOf]

theorem nonTerminal_fetchError {m : String} :
    nonTerminal (FetchOutcome.fetchError m) := by
  simp [nonTerminal, statusOf]

theorem storeGet_set_self (s : ServerB.Store) (k : String) (e : ServerB.StoreEntry) :
    ServerB.storeGet (ServerB.storeSet s k e) k = some e := by
  simp [ServerB.storeSet, ServerB.storeGet]

theorem monitorGo_count_le (jobId : String) (fetches : Nat → FetchOutcome) :
    ∀ (rem a : Nat) (store : ServerB.Store),
      (ServerB.monitorGo jobId fetches a rem store).2 ≤ rem := by
  intro rem
  induction rem with
  | zero => intro a store; simp [ServerB.monitorGo]
  | succ r ih =>
    intro a store
    rw [ServerB.monitorGo]
    cases hfa : fetches a with
    | fetchError m =>
      simpa using Nat.succ_le_succ (ih (a + 1) store)
    | ok st gens p =>
      by_cases hs : st = "succeeded"
      · simp only [hs, if_pos rfl]
        cases gens with
        | none => simp
        | some l =>
          cases l with
          | nil => simp
          | cons g gs => simp
      · by_cases hf : st = "failed"
        · simp [hs, hf]
        · simpa [hs, hf] using Nat.succ_le_succ (ih (a + 1) store)

theorem monitorGo_all_nonTerminal (jobId : String) (fetches : Nat → FetchOutcome) :
    ∀ (rem a : Nat) (store : ServerB.Store),
      (∀ i, a ≤ i → i < a + rem → nonTerminal (fetches i)) →
      ServerB.monitorGo jobId fetches a rem store = (store, rem) := by
  intro rem
  induction rem with
  | zero => intro a store _; simp [ServerB.monitorGo]
  | succ r ih =>
    intro a store h
    have ha : nonTerminal (fetches a) := h a (Nat.le_refl a) (by omega)
    rw [ServerB.monitorGo]
    cases hfa : fetches a with
    | fetchError m =>
      have := ih (a + 1) store (fun i h1 h2 => h i (by omega) (by omega))
      simp [this]
    | ok st gens p =>
      rw [hfa] at ha
      obtain ⟨hs, hf⟩ := nonTerminal_ok.mp ha
      have := ih (a + 1) store (fun i h1 h2 => h i (by omega) (by omega))
      simp [hs, hf, this]

theorem monitorGo_succeeded_at (jobId : String) (fetches : Nat → FetchOutcome)
    (g : Generation) (gs : List Generation) (p : Option String) :
    ∀ (d rem a : Nat) (store : ServerB.Store), d < rem →
      (∀ i, a ≤ i → i < a + d → nonTerminal (fetches i)) →
      fetches (a + d) = FetchOutcome.ok "succeeded" (some (g :: gs)) p →
      ServerB.monitorGo jobId fetches a rem store =
        (ServerB.storeSet store jobId ⟨some g.id, "ready", p⟩, d + 1) := by
  intro d
  induction d with
  | zero =>
    intro rem a store hlt _ hterm
    cases rem with
    | zero => omega
    | succ r =>
      rw [ServerB.monitorGo]
      rw [Nat.add_zero] at hterm
      rw [hterm]
      simp
  | succ e ih =>
    intro rem a store hlt hpre hterm
    cases rem with
    | zero => omega
    | succ r =>
      have ha : nonTerminal (fetches a) := hpre a (Nat.le_refl a) (by omega)
      rw [ServerB.monitorGo]
      cases hfa : fetches a with
      | fetchError m =>
        have heq : a + 1 + e = a + (e + 1) := by omega
        have := ih r (a + 1) store (by omega)
          (fun i h1 h2 => hpre i (by omega) (by omega))
          (by rw [heq]; exact hterm)
        simp [this]
      | ok st gens pr =>
        rw [hfa] at ha
        obtain ⟨hs, hf⟩ := nonTerminal_ok.mp ha
        have heq : a + 1 + e = a + (e + 1) := by omega
        have := ih r (a + 1) store (by omega)
          (fun i h1 h2 => hpre i (by omega) (by omega))
          (by rw [heq]; exact hterm)
        simp [hs, hf, this]

theorem monitorGo_failed_at (jobId : String) (fetches : Nat → FetchOutcome)
    (gens : Option (List Generation)) (p : Option String) :
    ∀ (d rem a : Nat) (store : ServerB.Store), d < rem →
      (∀ i, a ≤ i → i < a + d → nonTerminal (fetches i)) →
      fetches (a + d) = FetchOutcome.ok "failed" gens p →
      ServerB.monitorGo jobId fetches a rem store =
        (ServerB.storeSet store jobId ⟨none, "failed", none⟩, d + 1) := by
  intro d
  induction d with
  | zero =>
    intro rem a store hlt _ hterm
    cases rem with
    | zero => omega
    | succ r =>
      rw [ServerB.monitorGo]
      rw [Nat.add_zero] at hterm
      rw [hterm]
      simp
  | succ e ih =>
    intro rem a store hlt hpre hterm
    cases rem with
    | zero => omega
    | succ r =>
      have ha : nonTerminal (fetches a) := hpre a (Nat.le_refl a) (by omega)
      rw [ServerB.monitorGo]
      cases hfa : fetches a with
      | fetchError m =>
        have heq : a + 1 + e = a + (e + 1) := by omega
        have := ih r (a + 1) store (by omega)
          (fun i h1 h2 => hpre i (by omega) (by omega))
          (by rw [heq]; exact hterm)
        simp [this]
      | ok st gens2 pr =>
        rw [hfa] at ha
        obtain ⟨hs, hf⟩ := nonTerminal_ok.mp ha
        have heq : a + 1 + e = a + (e + 1) := by omega
        have := ih r (a + 1) store (by omega)
          (fun i h1 h2 => hpre i (by omega) (by omega))
          (by rw [heq]; exact hterm)
        simp [hs, hf, this]

theorem monitorGo_classify (jobId : String) (fetches : Nat → FetchOutcome) :
    ∀ (rem a : Nat) (store : ServerB.Store),
      (ServerB.monitorGo jobId fetches a rem store).1 = store ∨
      (∃ k g gs p, a ≤ k ∧ k < a + rem ∧
        fetches k = FetchOutcome.ok "succeeded" (some (g :: gs)) p ∧
        (ServerB.monitorGo jobId fetches a rem store).1 =
          ServerB.storeSet store jobId ⟨some g.id, "ready", p⟩) ∨
      (∃ k gens p, a ≤ k ∧ k < a + rem ∧
        fetches k = FetchOutcome.ok "failed" gens p ∧
        (ServerB.monitorGo jobId fetches a rem store).1 =
          ServerB.storeSet store jobId ⟨none, "failed", none⟩) := by
  intro rem
  induction rem with
  | zero => intro a store; left; simp [ServerB.monitorGo]
  | succ r ih =>
    intro a store
    rw [ServerB.monitorGo]
    cases hfa : fetches a with
    | fetchError m =>
      rcases ih (a + 1) store with h | ⟨k, g, gs, p, h1, h2, h3, h4⟩ |
        ⟨k, gens, p, h1, h2, h3, h4⟩
      · left; simpa using h
      · right; left; exact ⟨k, g, gs, p, by omega, by omega, h3, by simpa using h4⟩
      · right; right; exact ⟨k, gens, p, by omega, by omega, h3, by simpa using h4⟩
    | ok st gens p =>
      by_cases hs : st = "succeeded"
      · subst hs
        cases gens with
        | none => left; simp
        | some l =>
          cases l with
          | nil => left; simp
          | cons g gs =>
            right; left
            exact ⟨a, g, gs, p, Nat.le_refl a, by omega, hfa, by simp⟩
      · by_cases hf : st = "failed"
        · subst hf
          right; right
          exact ⟨a, gens, p, Nat.le_refl a, by omega, hfa, by simp [hs]⟩
        · rcases ih (a + 1) store with h | ⟨k, g, gs2, pp, h1, h2, h3, h4⟩ |
            ⟨k, gens2, pp, h1, h2, h3, h4⟩
          · left; simpa [hs, hf] using h
          · right; left
            exact ⟨k, g, gs2, pp, by omega, by omega, h3, by simpa [hs, hf] using h4⟩
          · right; right
            exact ⟨k, gens2, pp, by omega, by omega, h3, by simpa [hs, hf] using h4⟩

theorem waitGo_all_nonTerminal (fetches : Nat → FetchOutcome) :
    ∀ (rem a : Nat),
      (∀ i, a ≤ i → i < a + rem → nonTerminal (fetches i)) →
      Fs.waitGo fetches a rem =
        (⟨false, none, none, some "Video generation timeout after 10 minutes"⟩, rem) := by
  intro rem
  induction rem with
  | zero => intro a _; simp [Fs.waitGo]
  | succ r ih =>
    intro a h
    have ha : nonTerminal (fetches a) := h a (Nat.le_refl a) (by omega)
    rw [Fs.waitGo]
    cases hfa : fetches a with
    | fetchError m =>
      have := ih (a + 1) (fun i h1 h2 => h i (by omega) (by omega))
      simp [this]
    | ok st gens p =>
      rw [hfa] at ha
      obtain ⟨hs, hf⟩ := nonTerminal_ok.mp ha
      have := ih (a + 1) (fun i h1 h2 => h i (by omega) (by omega))
      simp [hs, hf, this]

/-- C1: the background poller for a job performs at most 60
status-fetch attempts; whenever all 60 attempts observe the
non-terminal status `running` the loop stops after the 60th attempt
without writing a store entry, and individual fetch errors (like any
other non-terminal outcome) never abort the loop early.  The same
budget behaviour holds for the deployment-variant poller
`waitForVideoCompletion`, which ends in the timeout result. -/
theorem claim1_poller_attempt_budget (jobId : String)
    (fetches : Nat → FetchOutcome) (store : ServerB.Store) :
    (ServerB.monitorVideoGeneration jobId fetches store).2 ≤ ServerB.maxAttempts ∧
    ((∀ i, 1 ≤ i → i ≤ ServerB.maxAttempts → statusOf (fetches i) = some "running") →
      ServerB.monitorVideoGeneration jobId fetches store = (store, ServerB.maxAttempts)) ∧
    ((∀ i, 1 ≤ i → i ≤ ServerB.maxAttempts → nonTerminal (fetches i)) →
      ServerB.monitorVideoGeneration jobId fetches store = (store, ServerB.maxAttempts)) ∧
    ((∀ i, 1 ≤ i → i ≤ ServerB.maxAttempts → statusOf (fetches i) = some "running") →
      Fs.waitForVideoCompletion fetches =
        (⟨false, none, none, some "Video generation timeout after 10 minutes"⟩,
          ServerB.maxAttempts)) := by
  have hrun : (∀ i, 1 ≤ i → i ≤ ServerB.maxAttempts → statusOf (fetches i) = some "running") →
      ∀ i, 1 ≤ i → i < 1 + ServerB.maxAttempts → nonTerminal (fetches i) := by
    intro h i h1 h2
    have hst := h i h1 (by omega)
    constructor
    · rw [hst]; simp
    · rw [hst]; simp
  refine ⟨monitorGo_count_le jobId fetches ServerB.maxAttempts 1 store, ?_, ?_, ?_⟩
  · intro h
    exact monitorGo_all_nonTerminal jobId fetches ServerB.maxAttempts 1 store (hrun h)
  · intro h
    exact monitorGo_all_nonTerminal jobId fetches ServerB.maxAttempts 1 store
      (fun i h1 h2 => h i h1 (by omega))
  · intro h
    exact waitGo_all_nonTerminal fetches ServerB.maxAttempts 1 (hrun h)

/-- Witness for C1 at the concrete all-`running` fetch stream. -/
theorem claim1_witness :
    (ServerB.monitorVideoGeneration "job1" constRunningFetches []).2 ≤ ServerB.maxAttempts ∧
    ServerB.monitorVideoGeneration "job1" constRunningFetches [] = ([], ServerB.maxAttempts) ∧
    Fs.waitForVideoCompletion constRunningFetches =
      (⟨false, none, none, some "Video generation timeout after 10 minutes"⟩,
        ServerB.maxAttempts) := by
  obtain ⟨h1, h2, _, h4⟩ := claim1_poller_attempt_budget "job1" constRunningFetches []
  exact ⟨h1, h2 (fun i _ _ => rfl), h4 (fun i _ _ => rfl)⟩

/-- C2 counterexample: in the variant that stores generation ids, a
poller run that observes `succeeded` with generation id `g1` at once
makes every later successful status check report `videoReady: true`,
but that status response carries no artifact locator at all — the
handler never emits a `videoUrl` or `downloadUrl` key. -/
theorem claim2_counterexample :
    (ServerB.checkVideoStatusHandler (some "job1")
      (FetchOutcome.ok "succeeded" (some [⟨"g1"⟩]) (some "a cat"))
      (ServerB.monitorVideoGeneration "job1" constSucceededFetches []).1).videoReady =
        some true ∧
    (ServerB.checkVideoStatusHandler (some "job1")
      (FetchOutcome.ok "succeeded" (some [⟨"g1"⟩]) (some "a cat"))
      (ServerB.monitorVideoGeneration "job1" constSucceededFetches []).1).videoUrl = none ∧
    (ServerB.checkVideoStatusHandler (some "job1")
      (FetchOutcome.ok "succeeded" (some [⟨"g1"⟩]) (some "a cat"))
      (ServerB.monitorVideoGeneration "job1" constSucceededFetches []).1).downloadUrl =
        none := by
  exact ⟨rfl, rfl, rfl⟩

/-- C2 (amended): when the poller observes `succeeded` with a
generation id within the attempt budget, the store maps the job id to
a ready entry holding that generation id; every subsequent status
check whose own upstream fetch succeeds reports `videoReady: true`
(the status response itself carries no URL field); the artifact is
resolvable through the `/download-video` endpoint, which constructs
the content URL from the stored generation id and serves the fetched
bytes. -/
theorem claim2_succeeded_ready (cfg : EnvConfig) (jobId : String)
    (fetches : Nat → FetchOutcome) (store : ServerB.Store)
    (k : Nat) (g : Generation) (gs : List Generation) (p : Option String)
    (hne : jobId ≠ "") (hk1 : 1 ≤ k) (hk2 : k ≤ ServerB.maxAttempts)
    (hpre : ∀ i, 1 ≤ i → i < k → nonTerminal (fetches i))
    (hk : fetches k = FetchOutcome.ok "succeeded" (some (g :: gs)) p) :
    ServerB.storeGet (ServerB.monitorVideoGeneration jobId fetches store).1 jobId =
      some ⟨some g.id, "ready", p⟩ ∧
    (∀ st gens2 p2,
      (ServerB.checkVideoStatusHandler (some jobId) (FetchOutcome.ok st gens2 p2)
        (ServerB.monitorVideoGeneration jobId fetches store).1).videoReady = some true ∧
      (ServerB.checkVideoStatusHandler (some jobId) (FetchOutcome.ok st gens2 p2)
        (ServerB.monitorVideoGeneration jobId fetches store).1).videoUrl = none ∧
      (ServerB.checkVideoStatusHandler (some jobId) (FetchOutcome.ok st gens2 p2)
        (ServerB.monitorVideoGeneration jobId fetches store).1).downloadUrl = none) ∧
    (∀ dl bytes, dl (ServerB.contentVideoUrl cfg g.id) = DlOutcome.ok bytes →
      ServerB.downloadVideoHandler (some jobId)
        (ServerB.monitorVideoGeneration jobId fetches store).1 cfg dl =
        (⟨200, none, some (ServerB.contentVideoUrl cfg g.id), some bytes⟩,
          ⟨true, true⟩)) := by
  have hkk : 1 + (k - 1) = k := by omega
  have hrun : ServerB.monitorVideoGeneration jobId fetches store =
      (ServerB.storeSet store jobId ⟨some g.id, "ready", p⟩, (k - 1) + 1) := by
    unfold ServerB.monitorVideoGeneration
    exact monitorGo_succeeded_at jobId fetches g gs p (k - 1) ServerB.maxAttempts 1 store
      (by simp [ServerB.maxAttempts] at hk2 ⊢; omega)
      (fun i h1 h2 => hpre i h1 (by omega))
      (by rw [hkk]; exact hk)
  have hget : ServerB.storeGet (ServerB.monitorVideoGeneration jobId fetches store).1 jobId =
      some ⟨some g.id, "ready", p⟩ := by
    rw [hrun]; exact storeGet_set_self store jobId _
  refine ⟨hget, ?_, ?_⟩
  · intro st gens2 p2
    simp [ServerB.checkVideoStatusHandler, jsFalsy, hne, hget]
  · intro dl bytes hdl
    simp [ServerB.downloadVideoHandler, jsFalsy, hne, hget, jsTemplateOpt, hdl]

/-- Witness for C2 at a concrete succeeded-at-once run. -/
theorem claim2_witness :
    ServerB.storeGet (ServerB.monitorVideoGeneration "job1" constSucceededFetches []).1
      "job1" = some ⟨some "g1", "ready", some "a cat"⟩ ∧
    ServerB.downloadVideoHandler (some "job1")
      (ServerB.monitorVideoGeneration "job1" constSucceededFetches []).1 cfgEx dlAlwaysOk =
      (⟨200, none, some (ServerB.contentVideoUrl cfgEx "g1"), some [7]⟩,
        ⟨true, true⟩) := by
  obtain ⟨h1, _, h3⟩ := claim2_succeeded_ready cfgEx "job1" constSucceededFetches []
    1 ⟨"g1"⟩ [] (some "a cat") (by decide) (Nat.le_refl 1) (by decide)
    (fun i hi1 hi2 => absurd (Nat.lt_of_le_of_lt hi1 hi2) (Nat.lt_irrefl 1)) rfl
  exact ⟨h1, h3 dlAlwaysOk [7] rfl⟩

/-- C3: once the poller observes upstream status `failed`, the store
holds the failed entry for that job id; every subsequent status check
whose upstream fetch succeeds reports `videoReady: false`, and no
status check for that job id can ever report `videoReady: true`
(handlers never write the store; the poller run stopped at the failed
observation). -/
theorem claim3_failed_permanent (jobId : String) (fetches : Nat → FetchOutcome)
    (store : ServerB.Store) (k : Nat) (gens : Option (List Generation))
    (p : Option String)
    (hne : jobId ≠ "") (hk1 : 1 ≤ k) (hk2 : k ≤ ServerB.maxAttempts)
    (hpre : ∀ i, 1 ≤ i → i < k → nonTerminal (fetches i))
    (hk : fetches k = FetchOutcome.ok "failed" gens p) :
    ServerB.storeGet (ServerB.monitorVideoGeneration jobId fetches store).1 jobId =
      some ⟨none, "failed", none⟩ ∧
    (∀ st gens2 p2,
      (ServerB.checkVideoStatusHandler (some jobId) (FetchOutcome.ok st gens2 p2)
        (ServerB.monitorVideoGeneration jobId fetches store).1).videoReady =
          some false) ∧
    (∀ outcome,
      (ServerB.checkVideoStatusHandler (some jobId) outcome
        (ServerB.monitorVideoGeneration jobId fetches store).1).videoReady ≠
          some true) := by
  have hkk : 1 + (k - 1) = k := by omega
  have hrun : ServerB.monitorVideoGeneration jobId fetches store =
      (ServerB.storeSet store jobId ⟨none, "failed", none⟩, (k - 1) + 1) := by
    unfold ServerB.monitorVideoGeneration
    exact monitorGo_failed_at jobId fetches gens p (k - 1) ServerB.maxAttempts 1 store
      (by simp [ServerB.maxAttempts] at hk2 ⊢; omega)
      (fun i h1 h2 => hpre i h1 (by omega))
      (by rw [hkk]; exact hk)
  have hget : ServerB.storeGet (ServerB.monitorVideoGeneration jobId fetches store).1 jobId =
      some ⟨none, "failed", none⟩ := by
    rw [hrun]; exact storeGet_set_self store jobId _
  refine ⟨hget, ?_, ?_⟩
  · intro st gens2 p2
    simp [ServerB.checkVideoStatusHandler, jsFalsy, hne, hget]
  · intro outcome
    cases outcome with
    | fetchError m => simp [ServerB.checkVideoStatusHandler, jsFalsy, hne]
    | ok st gens2 p2 => simp [ServerB.checkVideoStatusHandler, jsFalsy, hne, hget]

/-- Witness for C3 at a concrete failed-at-once run. -/
theorem claim3_witness :
    ServerB.storeGet (ServerB.monitorVideoGeneration "job1" constFailedFetches []).1
      "job1" = some ⟨none, "failed", none⟩ ∧
    (ServerB.checkVideoStatusHandler (some "job1")
      (FetchOutcome.ok "running" none none)
      (ServerB.monitorVideoGeneration "job1" constFailedFetches []).1).videoReady =
        some false := by
  obtain ⟨h1, h2, _⟩ := claim3_failed_permanent "job1" constFailedFetches [] 1 none none
    (by decide) (Nat.le_refl 1) (by decide)
    (fun i hi1 hi2 => absurd (Nat.lt_of_le_of_lt hi1 hi2) (Nat.lt_irrefl 1)) rfl
  exact ⟨h1, h2 "running" none none⟩

/-- C4 counterexample: a poller run whose single attempt observes only
status `failed` — never `succeeded` — still creates a store entry for
the job id (the failed marker entry). -/
theorem claim4_counterexample :
    ServerB.monitorVideoGeneration "job1" constFailedFetches [] =
      ([("job1", ⟨none, "failed", none⟩)], 1) ∧
    statusOf (constFailedFetches 1) = some "failed" := by
  exact ⟨rfl, rfl⟩

/-- C4 (amended): a poller run either leaves the store untouched or
performs exactly one write for its job id, and that write happens only
at a terminal observation: `succeeded` with a generation id creates
the ready entry, `failed` creates the failed marker entry.  No other
operation of the program writes the store, so an entry, once created
by the run, is never updated, invalidated, or removed. -/
theorem claim4_store_write_discipline (jobId : String)
    (fetches : Nat → FetchOutcome) (store : ServerB.Store) :
    (ServerB.monitorVideoGeneration jobId fetches store).1 = store ∨
    (∃ k g gs p, 1 ≤ k ∧ k ≤ ServerB.maxAttempts ∧
      fetches k = FetchOutcome.ok "succeeded" (some (g :: gs)) p ∧
      (ServerB.monitorVideoGeneration jobId fetches store).1 =
        ServerB.storeSet store jobId ⟨some g.id, "ready", p⟩) ∨
    (∃ k gens p, 1 ≤ k ∧ k ≤ ServerB.maxAttempts ∧
      fetches k = FetchOutcome.ok "failed" gens p ∧
      (ServerB.monitorVideoGeneration jobId fetches store).1 =
        ServerB.storeSet store jobId ⟨none, "failed", none⟩) := by
  have hm : ServerB.maxAttempts = 60 := rfl
  have h := monitorGo_classify jobId fetches ServerB.maxAttempts 1 store
  unfold ServerB.monitorVideoGeneration
  rcases h with h | ⟨k, g, gs, p, h1, h2, h3, h4⟩ | ⟨k, gens, p, h1, h2, h3, h4⟩
  · left; exact h
  · right; left
    exact ⟨k, g, gs, p, h1, by rw [hm] at h2 ⊢; omega, h3, h4⟩
  · right; right
    exact ⟨k, gens, p, h1, by rw [hm] at h2 ⊢; omega, h3, h4⟩

/-- C5: with a truthy prompt and configured service, an upstream reply
with HTTP status 201 or 202 makes `/generate-video` answer
`success: true` with the upstream body id as `jobId` and the upstream
body status as `status`; any other upstream HTTP status yields
`success: false` with an error message that embeds the upstream status
code and the stringified upstream body. -/
theorem claim5_submit_response (prompt : String) (cfg : EnvConfig)
    (up : SubmitResponse)
    (hp : prompt ≠ "")
    (he : jsFalsy cfg.endpoint = false) (hkey : jsFalsy cfg.key = false) :
    ((up.httpStatus = 201 ∨ up.httpStatus = 202) →
      generateVideo (some prompt) cfg up =
        (⟨true, none, up.id, up.status,
          some "Video generation started successfully!",
          some "Video will be ready in 2-5 minutes."⟩, true)) ∧
    (up.httpStatus ≠ 201 → up.httpStatus ≠ 202 →
      generateVideo (some prompt) cfg up =
        (⟨false, some ("Video generation failed: Video service error: " ++
            toString up.httpStatus ++ " - " ++ up.bodyText),
          none, none, none, none⟩, true)) := by
  have he' : ¬cfg.endpoint.getD "" = "" := by simpa [jsFalsy] using he
  have hkey' : ¬cfg.key.getD "" = "" := by simpa [jsFalsy] using hkey
  constructor
  · intro h
    rcases h with h | h <;> simp [generateVideo, jsFalsy, hp, he', hkey', h]
  · intro h1 h2
    simp [generateVideo, jsFalsy, hp, he', hkey', h1, h2]

/-- Witness for C5 at one accepted and one rejected upstream reply. -/
theorem claim5_witness :
    generateVideo (some "a cat") cfgEx up202Ex =
      (⟨true, none, some "abc", some "queued",
        some "Video generation started successfully!",
        some "Video will be ready in 2-5 minutes."⟩, true) ∧
    generateVideo (some "a cat") cfgEx up500Ex =
      (⟨false, some ("Video generation failed: Video service error: " ++
          toString (500 : Nat) ++ " - " ++ "quota exceeded"),
        none, none, none, none⟩, true) := by
  refine ⟨?_, ?_⟩
  · exact (claim5_submit_response "a cat" cfgEx up202Ex (by decide) rfl rfl).1
      (Or.inr rfl)
  · exact (claim5_submit_response "a cat" cfgEx up500Ex (by decide) rfl rfl).2
      (by decide) (by decide)

/-- C6: a `/generate-video` request with a missing (or empty, JS-falsy)
prompt is answered by exactly `success: false` with the fixed error
text, and the upstream service is never contacted. -/
theorem claim6_missing_prompt (prompt : Option String) (cfg : EnvConfig)
    (up : SubmitResponse) (h : jsFalsy prompt = true) :
    generateVideo prompt cfg up =
      (⟨false, some "Please provide a video prompt", none, none, none, none⟩,
        false) := by
  simp [generateVideo, h]

/-- Witness for C6 at an absent prompt. -/
theorem claim6_witness :
    generateVideo none cfgEx up202Ex =
      (⟨false, some "Please provide a video prompt", none, none, none, none⟩,
        false) :=
  claim6_missing_prompt none cfgEx up202Ex rfl

/-- C7: `downloadAndSaveVideo` tries its two candidate URLs in listed
order — if the first candidate returns HTTP success its bytes are
saved regardless of the second; if the first fails and the second
succeeds, the second candidate's bytes are saved; and nothing is saved
exactly when both candidates fail. -/
theorem claim7_download_candidates (cfg : EnvConfig) (jobId generationId : String)
    (dl : String → DlOutcome) :
    (∀ b, dl (Fs.contentUrl cfg generationId) = DlOutcome.ok b →
      Fs.downloadAndSaveVideo cfg jobId generationId dl =
        some ⟨"video-" ++ jobId ++ ".mp4", b⟩) ∧
    (∀ b, dlOkBytes (dl (Fs.contentUrl cfg generationId)) = none →
      dl (Fs.jobScopedContentUrl cfg jobId generationId) = DlOutcome.ok b →
      Fs.downloadAndSaveVideo cfg jobId generationId dl =
        some ⟨"video-" ++ jobId ++ ".mp4", b⟩) ∧
    (Fs.downloadAndSaveVideo cfg jobId generationId dl = none ↔
      dlOkBytes (dl (Fs.contentUrl cfg generationId)) = none ∧
      dlOkBytes (dl (Fs.jobScopedContentUrl cfg jobId generationId)) = none) := by
  refine ⟨?_, ?_, ?_⟩
  · intro b hb
    simp [Fs.downloadAndSaveVideo, Fs.downloadEndpoints, Fs.dlLoop, hb]
  · intro b h1 h2
    cases ho : dl (Fs.contentUrl cfg generationId) with
    | ok c => rw [ho] at h1; simp [dlOkBytes] at h1
    | httpError n =>
      simp [Fs.downloadAndSaveVideo, Fs.downloadEndpoints, Fs.dlLoop, ho, h2]
    | exn m =>
      simp [Fs.downloadAndSaveVideo, Fs.downloadEndpoints, Fs.dlLoop, ho, h2]
  · cases ho1 : dl (Fs.contentUrl cfg generationId) <;>
      cases ho2 : dl (Fs.jobScopedContentUrl cfg jobId generationId) <;>
      simp [Fs.downloadAndSaveVideo, Fs.downloadEndpoints, Fs.dlLoop, dlOkBytes,
        ho1, ho2]

/-- Witness for C7: the first candidate fails with HTTP 404 and the
second candidate's bytes are saved. -/
theorem claim7_witness :
    dlOkBytes (dlSecondOnly (Fs.contentUrl cfgEx "g1")) = none ∧
    Fs.downloadAndSaveVideo cfgEx "j1" "g1" dlSecondOnly =
      some ⟨"video-" ++ "j1" ++ ".mp4", [9, 9, 9]⟩ := by
  refine ⟨by decide, ?_⟩
  exact (claim7_download_candidates cfgEx "j1" "g1" dlSecondOnly).2.1 [9, 9, 9]
    (by decide) (by decide)

/-- C8: every status string outside the fixed lookup tables gets the
default progress 10 and the default message `Status: <status>` (shown
for both variants of `getStatusMessage`). -/
theorem claim8_unrecognized_status_defaults (status : String) (r : Bool)
    (h1 : status ≠ "preprocessing") (h2 : status ≠ "queued")
    (h3 : status ≠ "running") (h4 : status ≠ "processing")
    (h5 : status ≠ "succeeded") (h6 : status ≠ "failed") :
    getProgressFromStatus status = 10 ∧
    ServerB.getStatusMessage status r = "Status: " ++ status ∧
    Fs.getStatusMessage status r = "Status: " ++ status := by
  refine ⟨?_, ?_, ?_⟩
  · simp [getProgressFromStatus, progressTable, jsOrNat, h1, h2, h3, h4, h5, h6]
  · simp [ServerB.getStatusMessage, ServerB.messagesTable, jsOrStr,
      h1, h2, h3, h4, h5, h6]
  · simp [Fs.getStatusMessage, Fs.messagesTable, jsOrStr,
      h1, h2, h3, h4, h5, h6]

/-- Witness for C8 at the unrecognized status string `rendering`. -/
theorem claim8_witness :
    getProgressFromStatus "rendering" = 10 ∧
    ServerB.getStatusMessage "rendering" false = "Status: " ++ "rendering" ∧
    Fs.getStatusMessage "rendering" false = "Status: " ++ "rendering" :=
  claim8_unrecognized_status_defaults "rendering" false (by decide) (by decide)
    (by decide) (by decide) (by decide) (by decide)

/-- C9: although the table maps `failed` to 0, the JS `|| 10` fallback
treats 0 as falsy, so `getProgressFromStatus "failed"` is 10, and no
status string at all can produce progress 0. -/
theorem claim9_failed_progress_fallback :
    getProgressFromStatus "failed" = 10 ∧
    progressTable "failed" = some 0 ∧
    ∀ status, getProgressFromStatus status ≠ 0 := by
  refine ⟨rfl, rfl, ?_⟩
  intro status
  unfold getProgressFromStatus jsOrNat
  cases hv : progressTable status with
  | none => simp
  | some n => by_cases h : n = 0 <;> simp [h]

/-- C10: a `/download-video` or `/get-video-info` request without the
`jobId` query parameter is answered with HTTP 400 and the body
`error: "Job ID is required"`, and neither the store nor the upstream
service is consulted on that path. -/
theorem claim10_missing_jobid_400 (store : ServerB.Store) (cfg : EnvConfig)
    (dl : String → DlOutcome) :
    ServerB.downloadVideoHandler none store cfg dl =
      (⟨400, some "Job ID is required", none, none⟩, ⟨false, false⟩) ∧
    ServerB.getVideoInfoHandler none store =
      (⟨400, none, some "Job ID is required", none, none, none, none⟩,
        ⟨false, false⟩) := by
  exact ⟨rfl, rfl⟩

end VideoBot
